import Mathlib

/-!
# Verification of the `node-windows-audio-visualisation` capture/analysis core

Shallow embedding of the Rust sources (`src/fft.rs`, `src/utils.rs`,
`src/monitor.rs`) and proofs about them.  Machine floats (`f32`) are modelled
by real numbers; byte streams by lists of naturals; fallible or panicking code
by `Option`/`Except`.
-/

open scoped BigOperators

/-- `usize::next_power_of_two` from Rust: the smallest power of two `≥ n`
(`0 → 1`).  Fuel-based structural recursion so that it reduces by `decide`. -/
def nextPow2Fuel : ℕ → ℕ → ℕ
  | 0, _ => 1
  | fuel + 1, n => if n ≤ 1 then 1 else 2 * nextPow2Fuel fuel ((n + 1) / 2)

/-- `samples.len().next_power_of_two()` (fft.rs line 5). -/
def nextPow2 (n : ℕ) : ℕ :=
  nextPow2Fuel n n

/-- Unnormalised forward discrete Fourier transform, the contract of
`rustfft`'s `plan_fft_forward(fft_size).process` (fft.rs lines 20-23):
`X k = ∑ j, x j · exp (-2πi·j·k/N)`. -/
noncomputable def dft (l : List ℂ) : List ℂ :=
  (List.range l.length).map fun k =>
    ∑ j ∈ Finset.range l.length,
      l.getD j 0 * Complex.exp (-(2 * Real.pi * Complex.I * j * k) / l.length)

/-- The Hann window coefficient computed inside the loop of fft.rs lines
12-16: `0.5 * (1 - cos (2π·i/(fft_size - 1)))` (the subtraction is on floats,
modelled as real subtraction). -/
noncomputable def hann_window (fft_size i : ℕ) : ℝ :=
  0.5 * (1 - Real.cos (2 * Real.pi * i / ((fft_size : ℝ) - 1)))

/-- The banding stage of `analyze_spectrum` (fft.rs lines 31-40) applied to
the half-spectrum magnitude array.  At the call site `magnitudes.length =
fft_size / 2`, so `bins_per_band = (fft_size / 2) / num_bands` as in the
source.  Band `i` averages the magnitudes of bins
`[i * bins_per_band, (i+1) * bins_per_band)` and compresses with
`log10 (1 + avg)`.  (For `num_bands > magnitudes.length` the source divides
by zero in `f32`, producing `NaN`; real division by zero yields `0` instead —
all claims stay in the range `num_bands ≤ magnitudes.length`.) -/
noncomputable def band_spectrum (magnitudes : List ℝ) (num_bands : ℕ) : List ℝ :=
  let bins_per_band := magnitudes.length / num_bands
  (List.range num_bands).map fun i =>
    Real.logb 10
      (1 + ((magnitudes.drop (i * bins_per_band)).take bins_per_band).sum / (bins_per_band : ℝ))

/-- `analyze_spectrum` from fft.rs lines 4-43.  `fft_input` is built from
`samples.iter().take(fft_size)` (line 6-10), so it has
`min (samples.length) fft_size = samples.length` elements; the window loop
(lines 12-16) then indexes `fft_input[i]` for every `i < fft_size`, which
panics — modelled as `none` — whenever `fft_input.length < fft_size`, i.e.
whenever `samples.length` is not itself a power of two.  The
`fft_input.resize(fft_size, 0)` zero-padding (line 18) only happens after
that loop. -/
noncomputable def analyze_spectrum (samples : List ℝ) (num_bands : ℕ) : Option (List ℝ) :=
  let fft_size := nextPow2 samples.length
  let fft_input : List ℂ := (samples.take fft_size).map Complex.ofReal
  if fft_size ≤ fft_input.length then
    let windowed : List ℂ :=
      (List.range fft_size).map fun i =>
        fft_input.getD i 0 * Complex.ofReal (hann_window fft_size i)
    let padded : List ℂ := windowed ++ List.replicate (fft_size - windowed.length) 0
    let fft_output := dft padded
    let magnitudes : List ℝ := (fft_output.take (fft_size / 2)).map Complex.abs
    some (band_spectrum magnitudes num_bands)
  else
    none

/-- `exponential_decay` from utils.rs lines 41-43:
`max * (1 - (-k * x).exp())`. -/
noncomputable def exponential_decay (x k max : ℝ) : ℝ :=
  max * (1 - Real.exp (-k * x))

/-- Modelled from the spec: `extract_float_samples` is imported by
`monitor.rs` from `crate::utils` but its definition is not among the provided
sources.  Per the spec (§4.3 step 1, §8): for each of `chunk_size` sample
slots, read 4 bytes (little-endian IEEE-754 float32) from the front of the
byte queue as channel-0 data, then discard the remaining
`(channel_count - 1) × 4` bytes of that frame, i.e. `blockalign` bytes are
consumed per frame in total.  Bytes are naturals `< 256`; the float decoding
itself is floating point and is kept abstract as the parameter `decode`,
applied to the frame's first four bytes in queue order. -/
def extract_float_samples (decode : ℕ → ℕ → ℕ → ℕ → ℝ) :
    List ℕ → ℕ → ℕ → List ℝ × List ℕ
  | q, 0, _ => ([], q)
  | q, chunk + 1, blockalign =>
    let sample := decode (q.getD 0 0) (q.getD 1 0) (q.getD 2 0) (q.getD 3 0)
    let rest := extract_float_samples decode (q.drop blockalign) chunk blockalign
    (sample :: rest.1, rest.2)

/-- A `std::sync::Mutex<α>`, reduced to its contents plus a poisoning flag;
`lock` observes the `LockResult`. -/
structure PLock (α : Type) where
  val : α
  poisoned : Bool

/-- `Mutex::lock`: `Err` exactly when the lock is poisoned. -/
def PLock.lock {α : Type} (l : PLock α) : Except String α :=
  if l.poisoned then Except.error "PoisonError" else Except.ok l.val

/-- Modelled from the spec: the device environment seen by
`update_device_id`.  `get_output_device_by_id` is imported by `monitor.rs`
from `crate::utils` but is not among the provided sources, and the default
endpoint comes from the OS via `get_default_device` (COM).  Per the spec
(§4.5, §6): an id resolves iff it is among the enumerable output devices;
`default_id` is the default render endpoint's id when one is obtainable
(`none` when either the endpoint or its id lookup fails). -/
structure DeviceEnv where
  devices : List String
  default_id : Option String

/-- The `AudioMonitor` state (monitor.rs lines 17-23).  `spectrum` and
`running_lock` are the two `Arc<Mutex<_>>` slots shared with the worker
threads; `worker_handle` records whether a `JoinHandle` is held. -/
structure AudioMonitor where
  chunk_size : ℕ
  device_id : Option String
  spectrum : PLock (List ℝ)
  running_lock : PLock Bool
  worker_handle : Bool

/-- `AudioMonitor::new` (monitor.rs lines 28-36). -/
def AudioMonitor.new : AudioMonitor :=
  { chunk_size := 2048
    device_id := none
    spectrum := ⟨[], false⟩
    running_lock := ⟨false, false⟩
    worker_handle := false }

/-- The `running` getter (monitor.rs lines 127-130):
`self.running.lock().map(|r| *r).unwrap_or(false)`. -/
def AudioMonitor.running (m : AudioMonitor) : Bool :=
  match m.running_lock.lock with
  | Except.ok b => b
  | Except.error _ => false

/-- `AudioMonitor::stop` (monitor.rs lines 92-105): early return when not
running; otherwise set the flag to `false` (skipped if the lock is poisoned)
and take + join the worker handle. -/
def AudioMonitor.stop (m : AudioMonitor) : AudioMonitor :=
  if m.running then
    { m with
      running_lock := if m.running_lock.poisoned then m.running_lock else ⟨false, false⟩
      worker_handle := false }
  else m

/-- `AudioMonitor::set_device` (monitor.rs lines 38-49): no-op when the
requested id equals the stored one; otherwise stop if running, then store. -/
def AudioMonitor.set_device (m : AudioMonitor) (device_id : Option String) : AudioMonitor :=
  if m.device_id = device_id then m
  else
    let m' := if m.running then m.stop else m
    { m' with device_id := device_id }

/-- `AudioMonitor::update_device_id` (monitor.rs lines 137-164): keep a
resolvable id; otherwise fall back to the default endpoint's id (or `none`
when no default is obtainable). -/
def AudioMonitor.update_device_id (env : DeviceEnv) (m : AudioMonitor) : AudioMonitor :=
  match m.device_id with
  | some id => if id ∈ env.devices then m else { m with device_id := env.default_id }
  | none => { m with device_id := env.default_id }

/-- `AudioMonitor::start` (monitor.rs lines 51-90): stop any existing
session, optionally update `chunk_size`, set the running flag (an `Err` is
returned if that lock is poisoned), resolve the device id, spawn the worker
(thread spawning itself is an OS action modelled as succeeding). -/
def AudioMonitor.start (env : DeviceEnv) (m : AudioMonitor) (chunk_size : Option ℕ) :
    Except String AudioMonitor :=
  let m1 := m.stop
  let m2 := match chunk_size with
    | some size => { m1 with chunk_size := size }
    | none => m1
  match m2.running_lock.lock with
  | Except.error e => Except.error e
  | Except.ok _ =>
    let m3 := { m2 with running_lock := ⟨true, false⟩ }
    let m4 := m3.update_device_id env
    Except.ok { m4 with worker_handle := true }

/-- `AudioMonitor::get_spectrum` (monitor.rs lines 107-120).  The whole body
runs under the spectrum lock: a poisoned lock is mapped to an error; an
empty buffer yields `num_bands` zeros; otherwise `analyze_spectrum` runs (and
its panic — `none` — propagates). -/
noncomputable def AudioMonitor.get_spectrum (m : AudioMonitor) (num_bands : ℕ) :
    Option (Except String (List ℝ)) :=
  match m.spectrum.lock with
  | Except.error e => some (Except.error e)
  | Except.ok spec =>
    if spec = [] then some (Except.ok (List.replicate num_bands 0))
    else (analyze_spectrum spec num_bands).map Except.ok

/-- The `current_device_id` getter (monitor.rs lines 122-125):
`Ok(self.device_id.clone())`. -/
def AudioMonitor.current_device_id (m : AudioMonitor) : Except String (Option String) :=
  Except.ok m.device_id

/- -------------------------------------------------------------------- -/
/- Helper lemmas.                                                        -/
/- -------------------------------------------------------------------- -/

theorem getD_drop_nat (l : List ℕ) (k m : ℕ) : (l.drop k).getD m 0 = l.getD (k + m) 0 := by
  simp [List.getD_eq_getElem?_getD, List.getElem?_drop]

theorem slice_of_take (l : List ℝ) (a k m : ℕ) (h : a + k ≤ m) :
    ((l.take m).drop a).take k = (l.drop a).take k := by
  rw [List.drop_take, List.take_take]
  congr 1
  omega

theorem stop_poisoned (m : AudioMonitor) :
    m.stop.running_lock.poisoned = m.running_lock.poisoned := by
  unfold AudioMonitor.stop
  split_ifs with h1 h2
  · rfl
  · simp only [Bool.not_eq_true] at h2
    rw [h2]
  · rfl

theorem stop_device_id (m : AudioMonitor) : m.stop.device_id = m.device_id := by
  unfold AudioMonitor.stop
  split_ifs <;> rfl

theorem set_device_id_eq (m : AudioMonitor) (id : Option String) :
    (m.set_device id).device_id = id := by
  unfold AudioMonitor.set_device
  split_ifs with h
  · exact h
  · rfl
  · rfl

theorem set_device_poisoned (m : AudioMonitor) (id : Option String) :
    (m.set_device id).running_lock.poisoned = m.running_lock.poisoned := by
  unfold AudioMonitor.set_device
  split_ifs with h1 h2
  · rfl
  · exact stop_poisoned m
  · rfl

theorem running_true_elim (m : AudioMonitor) (hr : m.running = true) :
    m.running_lock.poisoned = false ∧ m.running_lock.val = true := by
  unfold AudioMonitor.running PLock.lock at hr
  by_cases hp : m.running_lock.poisoned <;> simp [hp] at hr ⊢
  exact hr

-- The success branch of `analyze_spectrum`: when the stored chunk length is
-- already a power of two the window loop stays in bounds and the result has
-- exactly `num_bands` entries.  (Contrast with the claim theorems on the
-- out-of-bounds branch below.)
theorem analyze_spectrum_some_of_pow2 (samples : List ℝ) (num_bands : ℕ)
    (h : nextPow2 samples.length = samples.length) :
    ∃ l, analyze_spectrum samples num_bands = some l ∧ l.length = num_bands := by
  simp only [analyze_spectrum]
  rw [h, List.take_length]
  have hc : samples.length ≤ (samples.map Complex.ofReal).length := by
    rw [List.length_map]
  rw [if_pos hc]
  exact ⟨_, rfl, by simp [band_spectrum]⟩

/- -------------------------------------------------------------------- -/
/- Claim theorems and witnesses.                                         -/
/- -------------------------------------------------------------------- -/

/-- Claim C1 (code bug, failing input): with the stored chunk `[1, 1, 1]`
(length 3, not a power of two) and `num_bands = 1`
(`1 ≤ num_bands ≤ fft_size / 2 = 2`), `get_spectrum` does not return a
1-element spectrum: the window loop of `analyze_spectrum` indexes
`fft_input[3]` into a 3-element vector — an out-of-bounds panic, modelled as
`none` — because the zero-padding `resize` only runs after that loop. -/
theorem get_spectrum_panics_on_non_pow2_chunk :
    AudioMonitor.get_spectrum ⟨2048, none, ⟨[1, 1, 1], false⟩, ⟨true, false⟩, true⟩ 1
      = none := by
  simp [AudioMonitor.get_spectrum, PLock.lock, analyze_spectrum]
  decide

/-- Claim C2: while the shared spectrum buffer is empty (no chunk ever
published, so its lock is in its initial unpoisoned state), `get_spectrum n`
successfully returns exactly `n` zeros — no error. -/
theorem get_spectrum_empty (m : AudioMonitor) (n : ℕ)
    (hp : m.spectrum.poisoned = false) (he : m.spectrum.val = []) :
    m.get_spectrum n = some (Except.ok (List.replicate n 0)) := by
  simp [AudioMonitor.get_spectrum, PLock.lock, hp, he]

theorem get_spectrum_empty_witness :
    AudioMonitor.new.get_spectrum 5 = some (Except.ok (List.replicate 5 0)) :=
  get_spectrum_empty AudioMonitor.new 5 rfl rfl

/-- Claim C3 (code bug, failing input): for the chunk `[0, 0, 0, 0, 0]`
(length 5, not a power of two) and `num_bands = 2 ≤ fft_size / 2 = 4`, the
windowing stage of `analyze_spectrum` uses indices `5, 6, 7` that are out of
bounds for the un-padded 5-element input vector: the claimed in-bounds
property fails, modelled as the `none` (panic) result. -/
theorem hann_window_loop_out_of_bounds :
    analyze_spectrum [0, 0, 0, 0, 0] 2 = none := by
  simp [analyze_spectrum]
  decide

/-- Claim C4 (modelled from the spec, `extract_float_samples` not being in
the sources): extracting `N` stereo float32 frames (`blockalign = 8`) from a
queue of at least `8N` bytes leaves exactly the queue's bytes from position
`8N` on, and yields `N` samples, the `i`-th being the decode of bytes
`8i .. 8i+3` — the little-endian channel-0 float — while bytes
`8i+4 .. 8i+7` (the other channel) reach no sample. -/
theorem extract_float_samples_spec (decode : ℕ → ℕ → ℕ → ℕ → ℝ) (q : List ℕ) (N : ℕ)
    (h : 8 * N ≤ q.length) :
    (extract_float_samples decode q N 8).2 = q.drop (8 * N) ∧
    (extract_float_samples decode q N 8).1 =
      (List.range N).map (fun i =>
        decode (q.getD (8 * i) 0) (q.getD (8 * i + 1) 0)
          (q.getD (8 * i + 2) 0) (q.getD (8 * i + 3) 0)) ∧
    (extract_float_samples decode q N 8).1.length = N := by
  induction N generalizing q with
  | zero => simp [extract_float_samples]
  | succ n ih =>
    have hlen : 8 * n ≤ (q.drop 8).length := by
      simp only [List.length_drop]
      omega
    obtain ⟨ih2, ih1, ihlen⟩ := ih (q.drop 8) hlen
    refine ⟨?_, ?_, ?_⟩
    · show (extract_float_samples decode (q.drop 8) n 8).2 = _
      rw [ih2, List.drop_drop]
      congr 1
      ring
    · show _ :: (extract_float_samples decode (q.drop 8) n 8).1 = _
      rw [ih1, List.range_succ_eq_map, List.map_cons, List.map_map]
      congr 1
      apply List.map_congr_left
      intro i hi
      simp only [Function.comp_apply, getD_drop_nat, Nat.succ_eq_add_one]
      have e0 : 8 + 8 * i = 8 * (i + 1) := by ring
      have e1 : 8 + (8 * i + 1) = 8 * (i + 1) + 1 := by ring
      have e2 : 8 + (8 * i + 2) = 8 * (i + 1) + 2 := by ring
      have e3 : 8 + (8 * i + 3) = 8 * (i + 1) + 3 := by ring
      rw [e0, e1, e2, e3]
    · show (_ :: (extract_float_samples decode (q.drop 8) n 8).1).length = _
      simp [ihlen]

theorem extract_float_samples_spec_witness :
    (extract_float_samples (fun a _ _ _ => (a : ℝ)) (List.range 16) 2 8).2
      = (List.range 16).drop (8 * 2) :=
  (extract_float_samples_spec (fun a _ _ _ => (a : ℝ)) (List.range 16) 2 (by simp)).1

/-- Claim C5: for `1 ≤ num_bands ≤ magnitudes.length` (the half-spectrum has
`fft_size / 2` entries), the banding stage partitions the magnitude array
into `num_bands` contiguous groups of exactly `bins_per_band =
magnitudes.length / num_bands` bins; band `i` is `log10 (1 + mean of its
bins)`, every band value is non-negative, and magnitudes beyond
`num_bands * bins_per_band` influence no band. -/
theorem band_spectrum_spec (mags : List ℝ) (nb : ℕ)
    (h1 : 1 ≤ nb) (h2 : nb ≤ mags.length) (h3 : ∀ x ∈ mags, 0 ≤ x) :
    (band_spectrum mags nb).length = nb ∧
    (∀ i, i < nb →
      ((mags.drop (i * (mags.length / nb))).take (mags.length / nb)).length
        = mags.length / nb ∧
      (band_spectrum mags nb).getD i 0 =
        Real.logb 10 (1 +
          ((mags.drop (i * (mags.length / nb))).take (mags.length / nb)).sum /
          (((mags.drop (i * (mags.length / nb))).take (mags.length / nb)).length : ℝ)) ∧
      0 ≤ (band_spectrum mags nb).getD i 0) ∧
    (∀ mags' : List ℝ, mags'.length = mags.length →
      mags'.take (nb * (mags.length / nb)) = mags.take (nb * (mags.length / nb)) →
      band_spectrum mags' nb = band_spectrum mags nb) := by
  have hb1 : 1 ≤ mags.length / nb := (Nat.one_le_div_iff (by omega)).mpr h2
  have hful : nb * (mags.length / nb) ≤ mags.length := Nat.mul_div_le _ _
  have hslice : ∀ i, i < nb →
      ((mags.drop (i * (mags.length / nb))).take (mags.length / nb)).length
        = mags.length / nb := by
    intro i hi
    have hstep : i * (mags.length / nb) + mags.length / nb ≤ nb * (mags.length / nb) := by
      have h := Nat.mul_le_mul_right (mags.length / nb) (show i + 1 ≤ nb by omega)
      rw [add_mul, one_mul] at h
      exact h
    simp only [List.length_take, List.length_drop]
    omega
  have hgetD : ∀ i, i < nb → (band_spectrum mags nb).getD i 0 =
      Real.logb 10 (1 +
        ((mags.drop (i * (mags.length / nb))).take (mags.length / nb)).sum /
        ((mags.length / nb : ℕ) : ℝ)) := by
    intro i hi
    simp [band_spectrum, List.getD_eq_getElem?_getD, List.getElem?_map,
      List.getElem?_range, hi]
  refine ⟨by simp [band_spectrum], ?_, ?_⟩
  · intro i hi
    refine ⟨hslice i hi, ?_, ?_⟩
    · rw [hgetD i hi, hslice i hi]
    · rw [hgetD i hi]
      apply Real.logb_nonneg (by norm_num)
      have hsum : 0 ≤ ((mags.drop (i * (mags.length / nb))).take (mags.length / nb)).sum := by
        apply List.sum_nonneg
        intro x hx
        exact h3 x (List.mem_of_mem_drop (List.mem_of_mem_take hx))
      have hbpos : (0 : ℝ) < ((mags.length / nb : ℕ) : ℝ) := by
        exact_mod_cast hb1
      have : 0 ≤ ((mags.drop (i * (mags.length / nb))).take (mags.length / nb)).sum /
          ((mags.length / nb : ℕ) : ℝ) := div_nonneg hsum hbpos.le
      linarith
  · intro mags' hlen htake
    unfold band_spectrum
    rw [hlen]
    apply List.map_congr_left
    intro i hi
    have hi' : i < nb := List.mem_range.mp hi
    have hmono : i * (mags.length / nb) + mags.length / nb ≤ nb * (mags.length / nb) := by
      have h := Nat.mul_le_mul_right (mags.length / nb) (show i + 1 ≤ nb by omega)
      rw [add_mul, one_mul] at h
      exact h
    rw [← slice_of_take mags (i * (mags.length / nb)) (mags.length / nb)
        (nb * (mags.length / nb)) hmono,
      ← slice_of_take mags' (i * (mags.length / nb)) (mags.length / nb)
        (nb * (mags.length / nb)) hmono,
      htake]

theorem band_spectrum_spec_witness :
    (band_spectrum (List.replicate 4 (0 : ℝ)) 2).length = 2 :=
  (band_spectrum_spec (List.replicate 4 0) 2 (by decide) (by simp) (by simp)).1

/-- Claim C6 (counterexample): on a monitor whose spectrum lock is poisoned,
`get_spectrum` does not return a spectrum value — it propagates the lock
failure as an error (`map_err` in monitor.rs line 119), which napi surfaces
as a thrown exception, contradicting the claim that the lock failure is
treated as "no data". -/
theorem get_spectrum_poisoned_is_error :
    AudioMonitor.get_spectrum ⟨2048, none, ⟨[], true⟩, ⟨true, false⟩, true⟩ 4
      = some (Except.error "PoisonError") := by
  simp [AudioMonitor.get_spectrum, PLock.lock]

/-- Claim C6 (amended): a poisoned running lock makes `running` report
`false` (the `unwrap_or(false)` path), as claimed; but a poisoned spectrum
lock makes `get_spectrum` return an error result — not an all-zero
spectrum. -/
theorem lock_poisoning_behavior (m : AudioMonitor) (n : ℕ)
    (hr : m.running_lock.poisoned = true) (hs : m.spectrum.poisoned = true) :
    m.running = false ∧ m.get_spectrum n = some (Except.error "PoisonError") := by
  constructor
  · simp [AudioMonitor.running, PLock.lock, hr]
  · simp [AudioMonitor.get_spectrum, PLock.lock, hs]

theorem lock_poisoning_behavior_witness :
    (⟨2048, none, ⟨[], true⟩, ⟨true, true⟩, true⟩ : AudioMonitor).running = false ∧
    (⟨2048, none, ⟨[], true⟩, ⟨true, true⟩, true⟩ : AudioMonitor).get_spectrum 3
      = some (Except.error "PoisonError") :=
  lock_poisoning_behavior ⟨2048, none, ⟨[], true⟩, ⟨true, true⟩, true⟩ 3 rfl rfl

/-- Claim C7: `set_device` with an id that resolves to no device, followed by
`start()` while a default output device is resolvable, replaces the stale id
by the default device's id; `current_device_id` afterwards reports the
default id and the start call does not fail because of the stale id. -/
theorem set_device_unresolvable_then_start (env : DeviceEnv) (m : AudioMonitor)
    (id d : String) (hid : id ∉ env.devices) (hd : env.default_id = some d)
    (hp : m.running_lock.poisoned = false) :
    ∃ m', (m.set_device (some id)).start env none = Except.ok m' ∧
      m'.current_device_id = Except.ok (some d) ∧ m'.device_id = some d := by
  have h1 : (m.set_device (some id)).device_id = some id := set_device_id_eq m (some id)
  have h3 : (m.set_device (some id)).stop.running_lock.poisoned = false := by
    rw [stop_poisoned, set_device_poisoned]
    exact hp
  have h4 : (m.set_device (some id)).stop.device_id = some id := by
    rw [stop_device_id]
    exact h1
  unfold AudioMonitor.start
  simp only [PLock.lock, h3, Bool.false_eq_true, if_false]
  refine ⟨_, rfl, ?_, ?_⟩ <;>
    simp [AudioMonitor.update_device_id, AudioMonitor.current_device_id, h4, hid, hd]

theorem set_device_unresolvable_then_start_witness :
    ∃ m', ((AudioMonitor.new.set_device (some "missing")).start
        ⟨["dev1"], some "default0"⟩ none) = Except.ok m' ∧
      m'.current_device_id = Except.ok (some "default0") ∧
      m'.device_id = some "default0" :=
  set_device_unresolvable_then_start ⟨["dev1"], some "default0"⟩ AudioMonitor.new
    "missing" "default0" (by simp) rfl rfl

/-- Claim C8: for every `k > 0` the transform
`exponential_decay x k 1 = 1 * (1 - exp (-k * x))` is strictly increasing in
`x`; for every non-negative input its value lies in `[0, 1)`; and it tends to
(asymptotically approaches) the maximum `1` without ever attaining it. -/
theorem exponential_decay_spec (k : ℝ) (hk : 0 < k) :
    (∀ x y : ℝ, x < y → exponential_decay x k 1 < exponential_decay y k 1) ∧
    (∀ x : ℝ, 0 ≤ x → exponential_decay x k 1 ∈ Set.Ico (0 : ℝ) 1) ∧
    Filter.Tendsto (fun x => exponential_decay x k 1) Filter.atTop (nhds 1) := by
  refine ⟨?_, ?_, ?_⟩
  · intro x y hxy
    unfold exponential_decay
    have h : Real.exp (-k * y) < Real.exp (-k * x) := by
      apply Real.exp_lt_exp.mpr
      nlinarith
    nlinarith
  · intro x hx
    unfold exponential_decay
    constructor
    · have h1 : Real.exp (-k * x) ≤ 1 := by
        apply Real.exp_le_one_iff.mpr
        nlinarith
      nlinarith
    · have h2 : 0 < Real.exp (-k * x) := Real.exp_pos _
      nlinarith
  · have h1 : Filter.Tendsto (fun x : ℝ => -k * x) Filter.atTop Filter.atBot :=
      Filter.Tendsto.const_mul_atTop_of_neg (by linarith) Filter.tendsto_id
    have h2 : Filter.Tendsto (fun x : ℝ => Real.exp (-k * x)) Filter.atTop (nhds 0) :=
      Real.tendsto_exp_atBot.comp h1
    have h3 := (Filter.Tendsto.const_sub 1 h2).const_mul 1
    simpa [exponential_decay] using h3

theorem exponential_decay_spec_witness :
    exponential_decay 0 1 1 ∈ Set.Ico (0 : ℝ) 1 :=
  ((exponential_decay_spec 1 one_pos).2.1) 0 le_rfl

/-- Claim C9 (counterexample): calling `set_device` with the currently stored
id while the monitor is running does not stop the monitor — the early-return
guard in monitor.rs lines 40-42 fires before the `running`/`stop` check, so
the monitor stays running, contrary to the claim that every `set_device`
call while running stops the monitor first. -/
theorem set_device_same_id_keeps_running :
    (AudioMonitor.set_device ⟨2048, some "a", ⟨[], false⟩, ⟨true, false⟩, true⟩
      (some "a")).running = true := by
  simp [AudioMonitor.set_device, AudioMonitor.running, PLock.lock]

/-- Claim C9 (amended): for every `set_device` call with a device id
**different from the stored one** while the monitor is running, the monitor
is stopped first (`running` becomes `false`) and the requested id is then
stored. -/
theorem set_device_different_id_stops (m : AudioMonitor) (id : Option String)
    (hne : m.device_id ≠ id) (hr : m.running = true) :
    (m.set_device id).running = false ∧ (m.set_device id).device_id = id := by
  refine ⟨?_, set_device_id_eq m id⟩
  obtain ⟨hp, hv⟩ := running_true_elim m hr
  have hstop : m.stop.running_lock = ⟨false, false⟩ := by
    unfold AudioMonitor.stop
    rw [if_pos hr]
    simp [hp]
  have hrw : m.set_device id = { m.stop with device_id := id } := by
    unfold AudioMonitor.set_device
    rw [if_neg hne]
    simp [hr]
  rw [hrw]
  unfold AudioMonitor.running
  simp [PLock.lock, hstop]

theorem set_device_different_id_stops_witness :
    ((⟨2048, none, ⟨[], false⟩, ⟨true, false⟩, true⟩ : AudioMonitor).set_device
        (some "x")).running = false ∧
    ((⟨2048, none, ⟨[], false⟩, ⟨true, false⟩, true⟩ : AudioMonitor).set_device
        (some "x")).device_id = some "x" :=
  set_device_different_id_stops ⟨2048, none, ⟨[], false⟩, ⟨true, false⟩, true⟩
    (some "x") (by simp) rfl

/-- Claim C10: calling `set_device` with an id equal to the stored one
(including `none` equal to `none`) is a complete no-op — the entire monitor
state, every field included, is returned unchanged. -/
theorem set_device_same_id_noop (m : AudioMonitor) (id : Option String)
    (h : m.device_id = id) : m.set_device id = m := by
  unfold AudioMonitor.set_device
  rw [if_pos h]

theorem set_device_same_id_noop_witness :
    AudioMonitor.new.set_device none = AudioMonitor.new :=
  set_device_same_id_noop AudioMonitor.new none rfl
